import Mathlib

/-!
Verification development for the wfirst_imsim pointing-geometry engine and
per-pointing accumulation pipeline (src/wfirst_imsim/telescope.py and
src/wfirst_imsim/sim.py).

Floating-point arithmetic of the source is modelled over the reals.  External
collaborators (numpy's seeded generator, the galsim WCS/PSF builders, the
dither FITS schedule, bandpass tables) are modelled as abstract functions in
an `Env` record: each is deterministic in the arguments the source passes, so
an arbitrary function of those arguments is a faithful interface model.
-/

set_option maxHeartbeats 1000000

namespace WfirstImsim

/-- One row of the dither survey file `fio.FITS(ditherfile)[-1][dither]`:
`ra`, `dec`, `pa` in degrees, `date` as MJD, and the integer filter code. -/
structure DitherRow where
  ra : ℝ
  dec : ℝ
  pa : ℝ
  date : ℝ
  filter : ℕ

/-- The celestial pose attributes that `pointing.update_dither` assigns
(`self.ra` .. `self.date` at telescope.py lines 82-91): radian angles and the
cached sines/cosines.  Before the first `update_dither` call none of these
attributes exist on the Python object, which the state models as an
`Option Pose` that is `none`. -/
structure Pose where
  ra : ℝ
  dec : ℝ
  pa : ℝ
  sdec : ℝ
  cdec : ℝ
  sra : ℝ
  cra : ℝ
  spa : ℝ
  cpa : ℝ
  date : ℝ

/-- The line-of-sight smearing kernel `self.los_motion`: a galsim Gaussian of
the given fwhm, optionally sheared (telescope.py lines 147-151). -/
inductive Smear
  | gaussian (fwhm : ℝ)
  | sheared (base : Smear) (g1 g2 : ℝ)

/-- Error classes observable from the embedded code: `paramError` is the
repository's own `ParamError` exception class, `attributeError` is Python's
AttributeError raised on access to a never-assigned attribute. -/
inductive Err
  | paramError
  | attributeError
deriving DecidableEq

/-- The stored PSF object `self.PSF`: either the Gaussian of the `gauss_psf`
option or the result of `wfirst.getPSF` at telescope.py lines 185-194, of
which the embedding records the arguments that vary with the pointing state. -/
inductive PsfModel
  | wfirstPsf (sca : Option ℕ) (filterName : Option String) (wavelength : ℝ)
      (extra : List ℝ)
  | gaussianPsf (halfLightRadius : ℝ)

/-- The PSF object handed back by `pointing.load_psf`: either the cached
`self.PSF` / `self.PSF_high`, or a freshly recomputed `wfirst.getPSF` under
chip-gradient mode (telescope.py lines 204-226). -/
inductive LoadedPsf
  | recomputed (sca : Option ℕ) (filterName : Option String) (extra : List ℝ)
  | cachedPsf
  | cachedStarPsf

/-- The configuration keys of the params dict that the embedded code reads.
An outer `none` models a key absent from the dict (the source guards most
reads with `if key in self.params`); an inner `none` models a key present
with value `None`. -/
structure Params where
  extra_aberrations : List ℝ := []
  gradient_aberration : Option Bool := none
  random_aberration : Option Bool := none
  oscillating_aberration : Option Bool := none
  random_aberration_gradient : Option Bool := none
  gauss_psf : Option (Option ℝ) := none
  los_motion : Option (Option ℝ) := none
  los_motion_e1 : Option (Option ℝ) := none
  los_motion_e2 : Option (Option ℝ) := none
  random_los_motion : Option Bool := none

/-- External collaborators, as deterministic interface functions.
`randDraw s` is the first `np.random.rand()` after `np.random.seed(s)` (the
source reseeds the global generator immediately before every draw, so each
draw is a pure function of its seed); `timeAberration` is
`pointing.time_aberration` as a function of the dither index;
`scaCenterY s` is `sca_center[s-1][1]`; `nPix` is `wfirst.n_pix`;
`bandpass f` is the effective wavelength of `wfirst.getBandpasses()[f]`
(the only field of the bandpass the embedded code consumes);
`filterDitherDict` is the reverse filter dictionary `filter_dither_dict_`;
`schedule` is the dither FITS table; `wcsCenter` is the composite
`wfirst.getWCS(...)[sca]` followed by `.toWorld` of the central pixel, the
only use the embedded code makes of the WCS object. -/
structure Env where
  randDraw : Option ℕ → ℝ := fun _ => 0
  timeAberration : Option ℕ → ℝ := fun _ => 0
  scaCenterY : Option ℕ → ℝ := fun _ => 0
  nPix : ℝ := 4096
  bandpass : String → ℝ := fun _ => 0
  filterDitherDict : ℕ → String := fun _ => ""
  schedule : ℕ → DitherRow := fun _ => ⟨0, 0, 0, 0, 0⟩
  wcsCenter : Pose → Option ℕ → ℝ × ℝ := fun _ _ => (0, 0)

/-- The mutable attributes of a `pointing` object that the embedded methods
read or write.  `pose`, `wcs` and `scaTrig` are `none` until the assigning
method has run, mirroring attributes that do not yet exist on the Python
object; `sca`, `dither`, `filter`, `bpass`, `losMotion` and `PSF` are
assigned `None` in `__init__` (telescope.py lines 31-36). -/
structure PointingState where
  sca : Option ℕ := none
  dither : Option ℕ := none
  filter : Option String := none
  bpass : Option ℝ := none
  pose : Option Pose := none
  wcs : Option (ℝ × ℝ) := none
  scaTrig : Option (ℝ × ℝ × ℝ × ℝ) := none
  losMotion : Option Smear := none
  extra_aberrations : List ℝ := []
  psf : Option PsfModel := none

/-- The attribute assignments of `pointing.__init__` (telescope.py lines
23-36) for a construction that passes neither filter, sca nor dither. -/
def initPointing (p : Params) : PointingState :=
  { extra_aberrations := p.extra_aberrations }

/-- `pointing.get_bpass` (telescope.py lines 51-63): records the filter name
and the bandpass looked up for it. -/
def get_bpass (env : Env) (s : PointingState) (filterName : String) :
    PointingState :=
  { s with filter := some filterName, bpass := some (env.bandpass filterName) }

/-- Degrees-to-radians pose construction of `pointing.update_dither`
(telescope.py lines 82-91), including the cached trig values. -/
noncomputable def mkPose (row : DitherRow) : Pose :=
  { ra := row.ra * Real.pi / 180
    dec := row.dec * Real.pi / 180
    pa := row.pa * Real.pi / 180
    sdec := Real.sin (row.dec * Real.pi / 180)
    cdec := Real.cos (row.dec * Real.pi / 180)
    sra := Real.sin (row.ra * Real.pi / 180)
    cra := Real.cos (row.ra * Real.pi / 180)
    spa := Real.sin (row.pa * Real.pi / 180)
    cpa := Real.cos (row.pa * Real.pi / 180)
    date := row.date }

/-- `pointing.update_dither` (telescope.py lines 65-95): record the dither
index, load the schedule row, recompute the pose and trig caches, and adopt
the schedule's filter (through `get_bpass`) only when `self.filter is None`. -/
noncomputable def update_dither (env : Env) (s : PointingState) (dither : ℕ) :
    PointingState :=
  let row := env.schedule dither
  let s2 : PointingState :=
    { s with dither := some dither, pose := some (mkPose row) }
  match s2.filter with
  | none => get_bpass env s2 (env.filterDitherDict row.filter)
  | some _ => s2

/-- The `extra_aberrations` selection of `pointing.get_psf` (telescope.py
lines 125-172): each enabled mode overwrites the variable in source order
gradient_aberration, random_aberration, oscillating_aberration,
random_aberration_gradient; if no mode is enabled the configured base vector
is used.  Each mode block reseeds the global generator before drawing, so the
draws are independent of the surrounding statements' order. -/
noncomputable def getPsfExtraAberrations (p : Params) (env : Env)
    (base : List ℝ) (sca dither : Option ℕ) : List ℝ :=
  let e0 : Option (List ℝ) := none
  let e1 := if p.gradient_aberration.getD false
    then some (base.map (fun a =>
      env.scaCenterY sca * a * Real.sqrt 3 / 88.115))
    else e0
  let e2 := if p.random_aberration.getD false
    then some (base.map (fun a => a * env.randDraw sca))
    else e1
  let e3 := if p.oscillating_aberration.getD false
    then some (base.map (fun a => a * env.timeAberration dither))
    else e2
  let e4 := if p.random_aberration_gradient.getD false
    then some (base.map (fun a =>
      a * env.randDraw sca * Real.sqrt 3 / (env.nPix / 2)))
    else e3
  e4.getD base

/-- The line-of-sight smearing block of `pointing.get_psf` (telescope.py
lines 144-153).  When the `los_motion` key is absent the whole block is
skipped.  When both shear-component keys are present with non-None values the
kernel is sheared (shearing a `None` kernel is Python's AttributeError); when
both keys are present and either value is None a `ParamError` is raised; when
either key is absent no shear branch runs at all. -/
noncomputable def losMotionSetup (p : Params) (prior : Option Smear) :
    Except Err (Option Smear) :=
  match p.los_motion with
  | none => .ok prior
  | some v =>
    let los : Option Smear :=
      match v with
      | some fwhm =>
        some (.gaussian (2 * Real.sqrt (2 * Real.log 2) * fwhm))
      | none => prior
    match p.los_motion_e1, p.los_motion_e2 with
    | some e1, some e2 =>
      match e1, e2 with
      | some g1, some g2 =>
        match los with
        | some sm => .ok (some (.sheared sm g1 g2))
        | none => .error Err.attributeError
      | _, _ => .error Err.paramError
    | _, _ => .ok los

/-- The decision applied to one pseudo-random draw by the random-subset
smearing policy (telescope.py line 159): the kernel is dropped exactly when
the draw exceeds 0.15. -/
noncomputable def losAfterRandomDraw (draw : ℝ) (los : Option Smear) :
    Option Smear :=
  if 0.15 < draw then none else los

/-- The `random_los_motion` block of `pointing.get_psf` (telescope.py lines
155-160): one draw seeded by `self.dither`, then the threshold decision. -/
noncomputable def randomLosMotion (p : Params) (env : Env)
    (los : Option Smear) (dither : Option ℕ) : Option Smear :=
  if p.random_los_motion.getD false
  then losAfterRandomDraw (env.randDraw dither) los
  else los

/-- `pointing.get_psf` (telescope.py lines 117-194): aberration selection,
line-of-sight smearing setup (which can raise), the random-subset policy, and
the final PSF assignment — `None` plus stored scaled aberrations under
chip-gradient mode, the Gaussian under a non-None `gauss_psf`, otherwise
`wfirst.getPSF` whose wavelength argument reads `self.bpass` (an
AttributeError when no bandpass was ever set). -/
noncomputable def get_psf (p : Params) (env : Env) (s : PointingState) :
    Except Err PointingState :=
  let extra := getPsfExtraAberrations p env s.extra_aberrations s.sca s.dither
  match losMotionSetup p s.losMotion with
  | .error e => .error e
  | .ok los0 =>
    let los := randomLosMotion p env los0 s.dither
    if p.random_aberration_gradient.getD false then
      .ok { s with losMotion := los, psf := none, extra_aberrations := extra }
    else if p.gauss_psf.isSome then
      match p.gauss_psf with
      | some (some hlr) =>
        .ok { s with losMotion := los, psf := some (.gaussianPsf hlr) }
      | _ => .ok { s with losMotion := los }
    else
      match s.bpass with
      | none => .error Err.attributeError
      | some wl =>
        .ok { s with losMotion := los,
                     psf := some (.wfirstPsf s.sca s.filter wl extra) }

/-- `pointing.get_wcs` (telescope.py lines 256-266): reads `self.ra`,
`self.dec`, `self.pa`, `self.date` — attributes that only exist after a
dither has been bound (AttributeError otherwise) — and produces the WCS for
the current SCA, of which the embedding keeps the world position of the
central pixel. -/
noncomputable def get_wcs (env : Env) (s : PointingState) :
    Except Err (ℝ × ℝ) :=
  match s.pose with
  | none => .error Err.attributeError
  | some pose => .ok (env.wcsCenter pose s.sca)

/-- `pointing.update_sca` (telescope.py lines 97-115): assign the SCA, run
`get_wcs` then `get_psf`, and cache the trig of the SCA-center sky position
obtained from the WCS. -/
noncomputable def update_sca (p : Params) (env : Env) (s : PointingState)
    (sca : ℕ) : Except Err PointingState :=
  let s1 : PointingState := { s with sca := some sca }
  match get_wcs env s1 with
  | .error e => .error e
  | .ok radec =>
    let s2 : PointingState := { s1 with wcs := some radec }
    match get_psf p env s2 with
    | .error e => .error e
    | .ok s3 =>
      .ok { s3 with scaTrig := some (Real.sin radec.2, Real.cos radec.2,
                                     Real.sin radec.1, Real.cos radec.1) }

/-- `pointing.load_psf` (telescope.py lines 198-228): under chip-gradient
mode, reseed by `self.sca`, coin-flip the axis, and recompute the PSF with
the stored aberrations scaled by `(i - n_pix/2 + 0.5)` where `i` is the
chosen pixel coordinate of `pos`; otherwise return the cached PSF. -/
noncomputable def load_psf (p : Params) (env : Env) (s : PointingState)
    (pos : ℤ × ℤ) (star : Bool) : LoadedPsf :=
  if p.random_aberration_gradient.getD false then
    let i : ℤ := if 0.5 < env.randDraw s.sca then pos.1 else pos.2
    .recomputed s.sca s.filter
      (s.extra_aberrations.map (fun a => a * ((i : ℝ) - env.nPix / 2 + 0.5)))
  else if star then .cachedStarPsf
  else .cachedPsf

/-- The squared chord distance computed by `pointing.near_pointing`
(telescope.py lines 329-336, non-SCA branch): the point and the cached
pointing center as Cartesian unit vectors, differenced and squared. -/
noncomputable def chordSq (ra0 dec0 ra dec : ℝ) : ℝ :=
  (Real.cos dec * Real.cos ra - Real.cos dec0 * Real.cos ra0) ^ 2
  + (Real.cos dec * Real.sin ra - Real.cos dec0 * Real.sin ra0) ^ 2
  + (Real.sin dec - Real.sin dec0) ^ 2

/-- The acceptance test of `pointing.near_pointing` for one queried point
(telescope.py line 339): `sqrt(d2)/2 <= self.sbore2`, where
`self.sbore2 = sin(max_rad_from_boresight/2)` is cached by `__init__`
(telescope.py line 48).  `np.where` returns exactly the indices of the points
passing this test. -/
noncomputable def near_pointing_accepts (bore ra0 dec0 ra dec : ℝ) : Prop :=
  Real.sqrt (chordSq ra0 dec0 ra dec) / 2 ≤ Real.sin (bore / 2)

/-- The three per-class candidate index sets held by the catalog object that
`wfirst_sim.setup` consults (sim.py lines 82-91). -/
structure Cats where
  gal_ind : List ℕ
  star_ind : List ℕ
  supernova_ind : List ℕ

/-- The return value of `wfirst_sim.setup` (sim.py lines 84-91): `true`
means the pointing is skipped.  After the early `setup`-flag return, only the
galaxy candidate list is tested for emptiness. -/
def setupSkips (setupFlag : Bool) (cats : Cats) : Bool :=
  if setupFlag then false
  else if cats.gal_ind.length = 0 then true
  else false

/-- One row of the truth index tables built by `wfirst_sim.iterate_image`
(sim.py lines 212, 253, 280); `ind` is initialized to the sentinel -999 and
overwritten only for realized objects.  The transient table stores a host id
in place of the stamp code — the distinction does not affect the sentinel
filter, so one row type serves all three classes. -/
structure IndexRow where
  ind : ℤ
  sca : ℤ
  dither : ℤ
  x : ℝ
  y : ℝ
  ra : ℝ
  dec : ℝ
  mag : ℝ
  stamp : ℤ

/-- The sentinel cut applied to each truth index table before writing
(sim.py lines 397-399): `index_table[index_table['ind'] > -999]`. -/
def truthCut (t : List IndexRow) : List IndexRow :=
  t.filter (fun r => -999 < r.ind)

/-- The freshly allocated index table (sim.py lines 212-213): `np.empty`
rows — modelled by an arbitrary junk row — with every `ind` set to -999. -/
def initIndexTable (n : ℕ) (junk : IndexRow) : List IndexRow :=
  List.replicate n { junk with ind := -999 }

/-- A detector-image accumulator pixel buffer. -/
abbrev Image := ℕ × ℕ → ℝ

/-- The receive-and-sum loop of `wfirst_sim.iterate_image` at rank 0
(sim.py lines 336-339): `for i in range(1, size): im = im + recv(i)`,
starting from the coordinator's own accumulator. -/
def reduceImages (own : Image) (others : List Image) : Image :=
  others.foldl (fun acc im => fun p => acc p + im p) own

/-- Modelled from the spec: `draw_image.finalize_sca` is not under src/ (the
`draw_image` class lives outside the two provided files).  The spec's
reduction-correctness property ("with 4 simulated workers each contributing a
detector accumulator of all-ones pixels, the coordinator's finalized image
must equal 4 everywhere") fixes finalization as pixel-value preserving on the
summed accumulator, which this models as the identity on the pixel buffer. -/
def finalize_sca (im : Image) : Image := im

/-- Spec-side definition for the amended C1: the mode actually applied is the
priority-ordered first match chip-gradient, time-varying, per-detector-random,
focal-plane-gradient, none — the reverse of the source's assignment order,
since the last enabled assignment wins. -/
noncomputable def prioritySelect (p : Params) (env : Env) (base : List ℝ)
    (sca dither : Option ℕ) : List ℝ :=
  if p.random_aberration_gradient.getD false then
    base.map (fun a => a * env.randDraw sca * Real.sqrt 3 / (env.nPix / 2))
  else if p.oscillating_aberration.getD false then
    base.map (fun a => a * env.timeAberration dither)
  else if p.random_aberration.getD false then
    base.map (fun a => a * env.randDraw sca)
  else if p.gradient_aberration.getD false then
    base.map (fun a => env.scaCenterY sca * a * Real.sqrt 3 / 88.115)
  else base

/-- Spec-side definition for the amended C8: the configurations on which the
smearing block raises `ParamError` — the `los_motion` key present, both
shear-component keys present, and not both of their values non-None. -/
def raisesSmearParamError (p : Params) : Bool :=
  match p.los_motion, p.los_motion_e1, p.los_motion_e2 with
  | some _, some e1, some e2 => !(e1.isSome && e2.isSome)
  | _, _, _ => false

/-- C2: after the post-accumulation barrier, the coordinator's image is the
elementwise sum of its own accumulator and every received accumulator; with 4
workers each contributing an all-ones accumulator, the finalized image is 4
in every pixel. -/
theorem coordinator_image_is_elementwise_sum :
    (∀ (own : Image) (others : List Image) (p : ℕ × ℕ),
        reduceImages own others p = own p + (others.map (fun im => im p)).sum)
    ∧ (∀ p : ℕ × ℕ,
        finalize_sca (reduceImages (fun _ => 1)
          [fun _ => 1, fun _ => 1, fun _ => 1]) p = 4) := by
  constructor
  · intro own others
    induction others generalizing own with
    | nil => intro p; simp [reduceImages]
    | cons im rest ih =>
        intro p
        have h := ih (fun q => own q + im q) p
        simp only [reduceImages, List.foldl_cons] at h ⊢
        rw [h]
        simp [List.map_cons, List.sum_cons]
        ring
  · intro p
    simp [finalize_sca, reduceImages, List.foldl]
    norm_num

/-- C3: every written truth index table has the sentinel cut applied, so it
contains no row whose `ind` field is -999; every row still holding the
sentinel is removed; in particular a table of only-attempted objects is cut
to nothing. -/
theorem truth_tables_exclude_sentinel :
    ∀ (t : List IndexRow) (r : IndexRow),
      (r ∈ truthCut t → r.ind ≠ -999)
      ∧ (r.ind = -999 → r ∉ truthCut t)
      ∧ (∀ (n : ℕ) (junk : IndexRow), truthCut (initIndexTable n junk) = []) := by
  intro t r
  refine ⟨?_, ?_, ?_⟩
  · intro hmem
    have h := List.of_mem_filter hmem
    simp only [decide_eq_true_eq] at h
    omega
  · intro hind hmem
    have h := List.of_mem_filter hmem
    simp only [decide_eq_true_eq] at h
    omega
  · intro n junk
    induction n with
    | zero => simp [initIndexTable, truthCut]
    | succ m ih =>
        simp only [initIndexTable, List.replicate_succ, truthCut,
          List.filter_cons] at ih ⊢
        simp [ih]

/-- Witness for C3 at a concrete table: the realized row with `ind = 5`
survives the cut, the sentinel row does not. -/
theorem truth_tables_exclude_sentinel_witness :
    ((⟨5, 3, 7, 0, 0, 0, 0, 0, 9⟩ : IndexRow).ind ≠ -999)
    ∧ ((⟨-999, 3, 7, 0, 0, 0, 0, 0, 9⟩ : IndexRow) ∉
        truthCut [⟨-999, 3, 7, 0, 0, 0, 0, 0, 9⟩, ⟨5, 3, 7, 0, 0, 0, 0, 0, 9⟩]) :=
  ⟨(truth_tables_exclude_sentinel
      [⟨-999, 3, 7, 0, 0, 0, 0, 0, 9⟩, ⟨5, 3, 7, 0, 0, 0, 0, 0, 9⟩]
      ⟨5, 3, 7, 0, 0, 0, 0, 0, 9⟩).1
      (by simp [truthCut, List.filter]),
   (truth_tables_exclude_sentinel
      [⟨-999, 3, 7, 0, 0, 0, 0, 0, 9⟩, ⟨5, 3, 7, 0, 0, 0, 0, 0, 9⟩]
      ⟨-999, 3, 7, 0, 0, 0, 0, 0, 9⟩).2.1 rfl⟩

/-- C4 counterexample: a pointing whose galaxy candidate set is empty but
whose star candidate set is non-empty is nevertheless skipped
(`setup` returns `true`), contradicting the claim that a non-empty candidate
set in any one of the three classes prevents the skip. -/
theorem setup_skip_counterexample :
    setupSkips false ⟨[], [5], []⟩ = true
    ∧ setupSkips false ⟨[], [5], []⟩ ≠ false := by
  constructor
  · rfl
  · simp [setupSkips]

/-- C4 amended: the per-pointing run is skipped with a no-op, non-error
return exactly when the galaxy candidate index set is empty — the star and
transient candidate sets are never consulted by the skip test. -/
theorem setup_skip_iff_no_galaxies :
    ∀ cats : Cats, setupSkips false cats = true ↔ cats.gal_ind = [] := by
  intro cats
  cases h : cats.gal_ind with
  | nil => simp [setupSkips, h]
  | cons a l => simp [setupSkips, h]

/-- C1 counterexample: with both per-detector-random and time-varying
enabled, a concrete environment in which the per-detector draw is 1/4 and the
time-varying factor is 3/4 yields the time-varying perturbation [3/4], not
the per-detector-random perturbation [1/4] the claimed priority order would
select. -/
theorem aberration_priority_counterexample :
    getPsfExtraAberrations
        { random_aberration := some true, oscillating_aberration := some true }
        { randDraw := fun _ => 1/4, timeAberration := fun _ => 3/4 }
        [1] (some 2) (some 5) = [(3/4 : ℝ)]
    ∧ [(3/4 : ℝ)] ≠ [(1/4 : ℝ)] := by
  constructor
  · simp [getPsfExtraAberrations]
  · intro h
    have h14 : (3/4 : ℝ) = 1/4 := by injection h
    norm_num at h14

/-- C1 amended: the perturbation actually applied is the priority-ordered
first match chip-gradient, time-varying, per-detector-random,
focal-plane-gradient, none — the source assigns the modes in the opposite
order and each enabled assignment overwrites the previous one, so the last
enabled mode wins; in particular enabling both per-detector-random and
time-varying applies the time-varying perturbation. -/
theorem aberration_priority_last_write_wins :
    ∀ (p : Params) (env : Env) (base : List ℝ) (sca dither : Option ℕ),
      getPsfExtraAberrations p env base sca dither
        = prioritySelect p env base sca dither := by
  intro p env base sca dither
  by_cases h1 : p.gradient_aberration.getD false
  <;> by_cases h2 : p.random_aberration.getD false
  <;> by_cases h3 : p.oscillating_aberration.getD false
  <;> by_cases h4 : p.random_aberration_gradient.getD false
  <;> simp [getPsfExtraAberrations, prioritySelect, h1, h2, h3, h4]

/-- The smearing kernel survives the random-subset decision iff the draw is
at most the threshold 0.15. -/
theorem losAfterRandomDraw_eq_none_iff (u : ℝ) (sm : Smear) :
    losAfterRandomDraw u (some sm) = none ↔ 0.15 < u := by
  unfold losAfterRandomDraw
  by_cases h : (0.15 : ℝ) < u <;> simp [h]

/-- The draws in the unit interval that keep the smearing kernel form a set
of measure 0.15. -/
theorem keep_draws_volume :
    MeasureTheory.volume {u : ℝ | u ∈ Set.Ico (0 : ℝ) 1 ∧ ¬ 0.15 < u}
      = ENNReal.ofReal 0.15 := by
  have hset : {u : ℝ | u ∈ Set.Ico (0 : ℝ) 1 ∧ ¬ 0.15 < u}
      = Set.Icc (0 : ℝ) 0.15 := by
    ext u
    simp only [Set.mem_setOf_eq, Set.mem_Ico, Set.mem_Icc, not_lt]
    constructor
    · rintro ⟨⟨h0, _⟩, h2⟩; exact ⟨h0, h2⟩
    · rintro ⟨h0, h2⟩; exact ⟨⟨h0, by linarith⟩, h2⟩
  rw [hset, Real.volume_Icc]
  norm_num

/-- The draws in the unit interval that disable the smearing kernel form a
set of measure 0.85. -/
theorem disabling_draws_volume :
    MeasureTheory.volume {u : ℝ | u ∈ Set.Ico (0 : ℝ) 1 ∧ 0.15 < u}
      = ENNReal.ofReal 0.85 := by
  have hset : {u : ℝ | u ∈ Set.Ico (0 : ℝ) 1 ∧ 0.15 < u}
      = Set.Ioo (0.15 : ℝ) 1 := by
    ext u
    simp only [Set.mem_setOf_eq, Set.mem_Ico, Set.mem_Ioo]
    constructor
    · rintro ⟨⟨_, h1⟩, h2⟩; exact ⟨h2, h1⟩
    · rintro ⟨h2, h1⟩; exact ⟨⟨by linarith, h1⟩, h2⟩
  rw [hset, Real.volume_Ioo]
  norm_num

/-- C7 counterexample: the set of draw values in the unit interval for which
the random-subset policy disables the smearing kernel has measure 0.85, not
the 0.15 the claimed 85%-keep / 15%-disable split asserts; concretely the
median draw 1/2 already disables the kernel. -/
theorem random_los_split_counterexample :
    MeasureTheory.volume {u : ℝ | u ∈ Set.Ico (0 : ℝ) 1
        ∧ losAfterRandomDraw u (some (Smear.gaussian 1)) = none}
      = ENNReal.ofReal 0.85
    ∧ ENNReal.ofReal (0.85 : ℝ) ≠ ENNReal.ofReal (0.15 : ℝ)
    ∧ losAfterRandomDraw (1/2) (some (Smear.gaussian 1)) = none := by
  refine ⟨?_, ?_, ?_⟩
  · have hset : {u : ℝ | u ∈ Set.Ico (0 : ℝ) 1
        ∧ losAfterRandomDraw u (some (Smear.gaussian 1)) = none}
        = {u : ℝ | u ∈ Set.Ico (0 : ℝ) 1 ∧ 0.15 < u} := by
      ext u
      rw [Set.mem_setOf_eq, Set.mem_setOf_eq,
        losAfterRandomDraw_eq_none_iff]
    rw [hset]
    exact disabling_draws_volume
  · intro h
    rw [ENNReal.ofReal_eq_ofReal_iff (by norm_num) (by norm_num)] at h
    norm_num at h
  · rw [losAfterRandomDraw_eq_none_iff]
    norm_num

/-- C7 amended: one pseudo-random value is drawn per dither, seeded by the
dither index, and smearing is disabled exactly for pointings where the draw
exceeds the threshold 0.15 — so 15% of draw values keep the smearing kernel
and 85% have it disabled (the reverse of the claimed split). -/
theorem random_los_subset_policy :
    (∀ (p : Params) (env : Env) (los : Option Smear) (dither : Option ℕ),
        randomLosMotion p env los dither
          = if p.random_los_motion.getD false
            then losAfterRandomDraw (env.randDraw dither) los
            else los)
    ∧ (∀ (u : ℝ) (sm : Smear),
        losAfterRandomDraw u (some sm) = none ↔ 0.15 < u)
    ∧ MeasureTheory.volume {u : ℝ | u ∈ Set.Ico (0 : ℝ) 1 ∧ ¬ 0.15 < u}
        = ENNReal.ofReal 0.15
    ∧ MeasureTheory.volume {u : ℝ | u ∈ Set.Ico (0 : ℝ) 1 ∧ 0.15 < u}
        = ENNReal.ofReal 0.85 :=
  ⟨fun _ _ _ _ => rfl, losAfterRandomDraw_eq_none_iff,
   keep_draws_volume, disabling_draws_volume⟩

/-- C8 counterexample: a configuration with `los_motion_e1` present (value
0.01 for the kernel, 0.1 for e1) but the `los_motion_e2` key entirely absent
is a one-sided asymmetric-smearing configuration, yet the smearing block
completes without raising: it returns the unsheared Gaussian kernel. -/
theorem one_sided_smearing_counterexample :
    losMotionSetup
        { los_motion := some (some (1/100)), los_motion_e1 := some (some (1/10)) }
        none
      = .ok (some (Smear.gaussian (2 * Real.sqrt (2 * Real.log 2) * (1/100))))
    ∧ losMotionSetup
        { los_motion := some (some (1/100)), los_motion_e1 := some (some (1/10)) }
        none
      ≠ .error Err.paramError := by
  constructor
  · rfl
  · simp [losMotionSetup]

/-- C8 amended: the smearing block raises `ParamError` (the spec's
ConfigurationError) exactly when the `los_motion` key is present, both
`los_motion_e1` and `los_motion_e2` keys are present, and at least one of the
two values is None; if either shear-component key is absent the one-sided
configuration passes silently with no shear applied. -/
theorem smearing_param_error_iff :
    ∀ (p : Params) (prior : Option Smear),
      losMotionSetup p prior = .error Err.paramError
        ↔ raisesSmearParamError p = true := by
  intro p prior
  rcases p with ⟨ea, ga, ra, oa, rag, gp, lm, e1, e2, rlm⟩
  cases lm with
  | none => simp [losMotionSetup, raisesSmearParamError]
  | some v =>
    cases e1 with
    | none => cases v <;> simp [losMotionSetup, raisesSmearParamError]
    | some a =>
      cases e2 with
      | none => cases v <;> simp [losMotionSetup, raisesSmearParamError]
      | some b =>
        cases a with
        | none => cases v <;> simp [losMotionSetup, raisesSmearParamError]
        | some g1 =>
          cases b with
          | none => cases v <;> simp [losMotionSetup, raisesSmearParamError]
          | some g2 =>
            cases v with
            | some fw => simp [losMotionSetup, raisesSmearParamError]
            | none =>
                cases prior <;> simp [losMotionSetup, raisesSmearParamError]

/-- C9: under chip-gradient mode the coin-flip that picks the pixel axis is
reseeded from the detector id alone, so for any two object positions (and
star flags) on the same bound detector the same axis is chosen — either both
calls scale by the horizontal coordinate, or both scale by the vertical
coordinate. -/
theorem chip_gradient_axis_constant_per_detector :
    ∀ (p : Params) (env : Env) (s : PointingState) (pos1 pos2 : ℤ × ℤ)
      (star1 star2 : Bool),
      p.random_aberration_gradient.getD false = true →
      (0.5 < env.randDraw s.sca
        ∧ load_psf p env s pos1 star1
            = .recomputed s.sca s.filter
                (s.extra_aberrations.map
                  (fun a => a * ((pos1.1 : ℝ) - env.nPix / 2 + 0.5)))
        ∧ load_psf p env s pos2 star2
            = .recomputed s.sca s.filter
                (s.extra_aberrations.map
                  (fun a => a * ((pos2.1 : ℝ) - env.nPix / 2 + 0.5))))
      ∨ (¬ 0.5 < env.randDraw s.sca
        ∧ load_psf p env s pos1 star1
            = .recomputed s.sca s.filter
                (s.extra_aberrations.map
                  (fun a => a * ((pos1.2 : ℝ) - env.nPix / 2 + 0.5)))
        ∧ load_psf p env s pos2 star2
            = .recomputed s.sca s.filter
                (s.extra_aberrations.map
                  (fun a => a * ((pos2.2 : ℝ) - env.nPix / 2 + 0.5)))) := by
  intro p env s pos1 pos2 star1 star2 hflag
  by_cases hd : 0.5 < env.randDraw s.sca
  · exact Or.inl ⟨hd, by simp [load_psf, hflag, hd], by simp [load_psf, hflag, hd]⟩
  · exact Or.inr ⟨hd, by simp [load_psf, hflag, hd], by simp [load_psf, hflag, hd]⟩

/-- Witness for C9: with the detector-seeded draw 7/10 the horizontal axis is
chosen for both a galaxy at (10, 20) and a star at (30, 40) on detector 3. -/
theorem chip_gradient_axis_witness :
    (0.5 < ({ randDraw := fun _ => 7/10 } : Env).randDraw
        ({ sca := some 3, filter := some "H158",
           extra_aberrations := [1] } : PointingState).sca
      ∧ load_psf { random_aberration_gradient := some true }
          { randDraw := fun _ => 7/10 }
          { sca := some 3, filter := some "H158", extra_aberrations := [1] }
          (10, 20) false
        = .recomputed (some 3) (some "H158")
            ([(1 : ℝ)].map (fun a =>
              a * (((10 : ℤ) : ℝ) - (4096 : ℝ) / 2 + 0.5)))
      ∧ load_psf { random_aberration_gradient := some true }
          { randDraw := fun _ => 7/10 }
          { sca := some 3, filter := some "H158", extra_aberrations := [1] }
          (30, 40) true
        = .recomputed (some 3) (some "H158")
            ([(1 : ℝ)].map (fun a =>
              a * (((30 : ℤ) : ℝ) - (4096 : ℝ) / 2 + 0.5))))
    ∨ (¬ 0.5 < ({ randDraw := fun _ => 7/10 } : Env).randDraw
        ({ sca := some 3, filter := some "H158",
           extra_aberrations := [1] } : PointingState).sca
      ∧ load_psf { random_aberration_gradient := some true }
          { randDraw := fun _ => 7/10 }
          { sca := some 3, filter := some "H158", extra_aberrations := [1] }
          (10, 20) false
        = .recomputed (some 3) (some "H158")
            ([(1 : ℝ)].map (fun a =>
              a * (((20 : ℤ) : ℝ) - (4096 : ℝ) / 2 + 0.5)))
      ∧ load_psf { random_aberration_gradient := some true }
          { randDraw := fun _ => 7/10 }
          { sca := some 3, filter := some "H158", extra_aberrations := [1] }
          (30, 40) true
        = .recomputed (some 3) (some "H158")
            ([(1 : ℝ)].map (fun a =>
              a * (((40 : ℤ) : ℝ) - (4096 : ℝ) / 2 + 0.5)))) :=
  chip_gradient_axis_constant_per_detector
    { random_aberration_gradient := some true }
    { randDraw := fun _ => 7/10 }
    { sca := some 3, filter := some "H158", extra_aberrations := [1] }
    (10, 20) (30, 40) false true rfl

/-- C10: `update_dither` never changes an already-fixed filter (nor its
bandpass); the dither schedule's recorded filter and bandpass are adopted
exactly when no filter had been set. -/
theorem update_dither_preserves_filter :
    ∀ (env : Env) (s : PointingState) (d : ℕ),
      (∀ f, s.filter = some f →
        (update_dither env s d).filter = some f
        ∧ (update_dither env s d).bpass = s.bpass)
      ∧ (s.filter = none →
        (update_dither env s d).filter
            = some (env.filterDitherDict (env.schedule d).filter)
        ∧ (update_dither env s d).bpass
            = some (env.bandpass
                (env.filterDitherDict (env.schedule d).filter))) := by
  intro env s d
  constructor
  · intro f hf
    constructor <;> simp [update_dither, hf]
  · intro hf
    constructor <;> simp [update_dither, get_bpass, hf]

/-- Witness for C10: a frame whose filter was fixed to Y106 by `get_bpass`
keeps filter and bandpass across `update_dither`, and a filterless frame
adopts the schedule's filter. -/
theorem update_dither_preserves_filter_witness :
    ((update_dither ({} : Env)
        (get_bpass ({} : Env) (initPointing {}) "Y106") 3).filter
      = some "Y106"
    ∧ (update_dither ({} : Env)
        (get_bpass ({} : Env) (initPointing {}) "Y106") 3).bpass
      = (get_bpass ({} : Env) (initPointing {}) "Y106").bpass)
    ∧ ((update_dither ({} : Env) (initPointing {}) 3).filter
      = some (({} : Env).filterDitherDict ((({} : Env).schedule 3).filter))
    ∧ (update_dither ({} : Env) (initPointing {}) 3).bpass
      = some (({} : Env).bandpass
          (({} : Env).filterDitherDict ((({} : Env).schedule 3).filter)))) :=
  ⟨(update_dither_preserves_filter ({} : Env)
      (get_bpass ({} : Env) (initPointing {}) "Y106") 3).1 "Y106" rfl,
   (update_dither_preserves_filter ({} : Env) (initPointing {}) 3).2 rfl⟩

/-- C5 counterexample: calling `update_sca` on a freshly constructed pointing
with no dither bound fails with an AttributeError (reading the never-assigned
`self.ra` inside `get_wcs`), not with the `ParamError` class that the
repository's binding-order checks raise. -/
theorem bind_detector_unbound_counterexample :
    update_sca ({} : Params) ({} : Env) (initPointing {}) 1
        = .error Err.attributeError
    ∧ update_sca ({} : Params) ({} : Env) (initPointing {}) 1
        ≠ .error Err.paramError := by
  constructor
  · rfl
  · simp [update_sca, get_wcs, initPointing]

/-- C5 amended: calling `update_sca` on any frame to which no dither has been
bound (its pose attributes unset) fails with Python's AttributeError, which
is a different error class from the repository's `ParamError` (the spec's
StateError). -/
theorem bind_detector_requires_dither :
    ∀ (p : Params) (env : Env) (s : PointingState) (k : ℕ),
      s.pose = none →
      update_sca p env s k = .error Err.attributeError
      ∧ Err.attributeError ≠ Err.paramError := by
  intro p env s k hp
  constructor
  · simp [update_sca, get_wcs, hp]
  · decide

/-- Witness for C5's amended theorem at a concrete frame: a pointing built
with only a filter bound still fails `update_sca` with AttributeError. -/
theorem bind_detector_requires_dither_witness :
    update_sca ({} : Params) ({} : Env)
        (get_bpass ({} : Env) (initPointing {}) "J129") 4
      = .error Err.attributeError
    ∧ Err.attributeError ≠ Err.paramError :=
  bind_detector_requires_dither ({} : Params) ({} : Env)
    (get_bpass ({} : Env) (initPointing {}) "J129") 4 rfl

/-- The Cartesian unit vector of a sky position has squared norm 1. -/
theorem unit_norm_sq (ra dec : ℝ) :
    (Real.cos dec * Real.cos ra) ^ 2 + (Real.cos dec * Real.sin ra) ^ 2
      + Real.sin dec ^ 2 = 1 := by
  have h1 := Real.sin_sq_add_cos_sq ra
  have h2 := Real.sin_sq_add_cos_sq dec
  linear_combination (Real.cos dec) ^ 2 * h1 + h2

/-- The squared chord distance between two unit vectors is at most 4. -/
theorem chordSq_le_four (ra0 dec0 ra dec : ℝ) :
    chordSq ra0 dec0 ra dec ≤ 4 := by
  have hu := unit_norm_sq ra dec
  have hu0 := unit_norm_sq ra0 dec0
  have hkey : chordSq ra0 dec0 ra dec
      + ((Real.cos dec * Real.cos ra + Real.cos dec0 * Real.cos ra0) ^ 2
        + (Real.cos dec * Real.sin ra + Real.cos dec0 * Real.sin ra0) ^ 2
        + (Real.sin dec + Real.sin dec0) ^ 2) = 4 := by
    unfold chordSq
    linear_combination 2 * hu + 2 * hu0
  nlinarith [sq_nonneg (Real.cos dec * Real.cos ra
      + Real.cos dec0 * Real.cos ra0),
    sq_nonneg (Real.cos dec * Real.sin ra + Real.cos dec0 * Real.sin ra0),
    sq_nonneg (Real.sin dec + Real.sin dec0)]

/-- The squared chord distance to the antipodal point is exactly 4. -/
theorem chordSq_antipodal (ra0 dec0 : ℝ) :
    chordSq ra0 dec0 (ra0 + Real.pi) (-dec0) = 4 := by
  have hu0 := unit_norm_sq ra0 dec0
  unfold chordSq
  rw [Real.cos_neg, Real.sin_neg, Real.cos_add_pi, Real.sin_add_pi]
  linear_combination 4 * hu0

/-- Evaluation of the square root of 4. -/
theorem sqrt_four : Real.sqrt 4 = 2 := by
  rw [show (4 : ℝ) = 2 ^ 2 by norm_num,
    Real.sqrt_sq (by norm_num : (0 : ℝ) ≤ 2)]

/-- C6 counterexample: with pointing center (0,0), the exactly antipodal
point (π,0) IS accepted by `near_pointing` at search radius π (so the result
is not the empty set there), and at search radius 2π ≥ π the same point is
NOT accepted (so not every queried point is returned) — both halves of the
claim fail at radius ≥ π. -/
theorem near_pointing_counterexample :
    near_pointing_accepts Real.pi 0 0 Real.pi 0
    ∧ Real.pi ≤ 2 * Real.pi
    ∧ ¬ near_pointing_accepts (2 * Real.pi) 0 0 Real.pi 0 := by
  have hchord : chordSq 0 0 Real.pi 0 = 4 := by
    have h := chordSq_antipodal 0 0
    rw [zero_add, neg_zero] at h
    exact h
  refine ⟨?_, ?_, ?_⟩
  · unfold near_pointing_accepts
    rw [hchord, sqrt_four, Real.sin_pi_div_two]
    norm_num
  · linarith [Real.pi_pos]
  · unfold near_pointing_accepts
    rw [hchord, sqrt_four,
      show 2 * Real.pi / 2 = Real.pi by ring, Real.sin_pi]
    norm_num

/-- C6 amended: the antipodal point is excluded for every search radius in
[0, π); at search radius exactly π every queried point — the antipodal one
included — is accepted, and (per the counterexample) for radius above π not
all points are accepted, so the claimed behavior at radius ≥ π holds only in
the degenerate form "all points accepted at radius = π". -/
theorem near_pointing_antipodal_amended :
    (∀ bore ra0 dec0 : ℝ, 0 ≤ bore → bore < Real.pi →
      ¬ near_pointing_accepts bore ra0 dec0 (ra0 + Real.pi) (-dec0))
    ∧ (∀ ra0 dec0 ra dec : ℝ, near_pointing_accepts Real.pi ra0 dec0 ra dec)
    := by
  constructor
  · intro bore ra0 dec0 h0 hlt
    unfold near_pointing_accepts
    rw [chordSq_antipodal, sqrt_four]
    have hpi := Real.pi_pos
    have hmem1 : bore / 2 ∈ Set.Icc (-(Real.pi / 2)) (Real.pi / 2) :=
      ⟨by linarith, by linarith⟩
    have hmem2 : Real.pi / 2 ∈ Set.Icc (-(Real.pi / 2)) (Real.pi / 2) :=
      ⟨by linarith, le_rfl⟩
    have hs := Real.strictMonoOn_sin hmem1 hmem2 (by linarith)
    rw [Real.sin_pi_div_two] at hs
    intro hle
    norm_num at hle
    linarith
  · intro ra0 dec0 ra dec
    unfold near_pointing_accepts
    rw [Real.sin_pi_div_two]
    have h4 := chordSq_le_four ra0 dec0 ra dec
    have hsq : Real.sqrt (chordSq ra0 dec0 ra dec) ≤ 2 := by
      have h := Real.sqrt_le_sqrt h4
      rwa [sqrt_four] at h
    linarith

/-- Witness for C6's amended theorem: at search radius π/2 the point
antipodal to the pointing center (0,0) is rejected. -/
theorem near_pointing_antipodal_witness :
    (0 : ℝ) ≤ Real.pi / 2 ∧ Real.pi / 2 < Real.pi
    ∧ ¬ near_pointing_accepts (Real.pi / 2) 0 0 (0 + Real.pi) (-0) := by
  have h0 : (0 : ℝ) ≤ Real.pi / 2 := by linarith [Real.pi_pos]
  have h1 : Real.pi / 2 < Real.pi := by linarith [Real.pi_pos]
  exact ⟨h0, h1,
    near_pointing_antipodal_amended.1 (Real.pi / 2) 0 0 h0 h1⟩

end WfirstImsim
